import Mathlib

/-!
Verification of the TEN framework graph model and transformation engine.

This file gives a shallow embedding, in Lean 4, of the Rust sources of the
graph subsystem (ten_rust graph model, reverse-connection normalizer,
subgraph flattener helpers, path resolver, manifest-interface flattener,
and the ten_manager add-connection mutator), together with theorems about
the embedded operations.

Conventions used throughout:
- Rust `Option<T>` becomes `Option T`; `Result<T>` becomes `Except String T`.
- Rust `&mut` out-parameters become explicit state passing: a function that
  mutates an argument returns the updated value.
- Rust `HashMap` accumulation is embedded as association-list folds that
  keep first-insertion order; Rust iteration order over a `HashMap` is
  unspecified, and every property proved here is insensitive to that order.
- `serde_json::Value` payloads (node properties) are never inspected by any
  operation verified here, so they are embedded as uninterpreted strings.
- File, HTTP and JSON-parsing effects are embedded as function parameters
  supplied by the caller, mirroring the loader-injection design of the
  source.
-/

namespace Ten

/-- Message-conversion attachment of a destination. The concrete
`MsgAndResultConversion` type lives outside the graph algorithms and is
never inspected by them; it is embedded as an uninterpreted payload. -/
structure MsgAndResultConversion where
  payload : String
deriving Repr, DecidableEq

/-- Location quad identifying the endpoint of a flow
(`ten_rust::graph::connection::GraphLoc`). -/
structure GraphLoc where
  app : Option String
  extension : Option String
  subgraph : Option String
  selector : Option String
deriving Repr, DecidableEq

/-- Source entry of a message flow. -/
structure GraphSource where
  loc : GraphLoc
deriving Repr, DecidableEq

/-- Destination entry of a message flow. -/
structure GraphDestination where
  loc : GraphLoc
  msg_conversion : Option MsgAndResultConversion
deriving Repr, DecidableEq

/-- Message flow: a named (or multi-named) channel with destinations and
optional reverse sources (`GraphMessageFlow`). Exactly one of `name` and
`names` is populated by the constructors used in the sources. -/
structure GraphMessageFlow where
  name : Option String
  names : Option (List String)
  dest : List GraphDestination
  source : List GraphSource
deriving Repr, DecidableEq

/-- Connection rooted at a location, with one optional ordered flow list per
message category. -/
structure GraphConnection where
  loc : GraphLoc
  cmd : Option (List GraphMessageFlow)
  data : Option (List GraphMessageFlow)
  audio_frame : Option (List GraphMessageFlow)
  video_frame : Option (List GraphMessageFlow)
deriving Repr, DecidableEq

/-- Node type tag (`GraphNodeType`). -/
inductive GraphNodeType where
  | Extension
  | Subgraph
  | Selector
deriving Repr, DecidableEq

/-- Graph node, embedded as the flat record used by the flattener and the
reference checker: a type tag plus the union of the extension fields
(`addon`, `extension_group`, `app`) and the subgraph field (`source_uri`).
The JSON property payload is uninterpreted here. -/
structure GraphNode where
  type_ : GraphNodeType
  name : String
  addon : Option String
  extension_group : Option String
  app : Option String
  property : Option String
  source_uri : Option String
deriving Repr, DecidableEq

/-- Exposed-message direction-and-category tag. -/
inductive GraphExposedMessageType where
  | CmdIn
  | CmdOut
  | DataIn
  | DataOut
  | AudioFrameIn
  | AudioFrameOut
  | VideoFrameIn
  | VideoFrameOut
deriving Repr, DecidableEq

/-- Public endpoint of a subgraph. -/
structure GraphExposedMessage where
  msg_type : GraphExposedMessageType
  name : String
  extension : Option String
deriving Repr, DecidableEq

/-- Exposed property of a subgraph. -/
structure GraphExposedProperty where
  extension : String
  name : String
deriving Repr, DecidableEq

/-- Graph: nodes plus optional connections and exposed surfaces. -/
structure Graph where
  nodes : List GraphNode
  connections : Option (List GraphConnection)
  exposed_messages : Option (List GraphExposedMessage)
  exposed_properties : Option (List GraphExposedProperty)
deriving Repr, DecidableEq

/-- App URI accessor of a node (`GraphNode::get_app_uri`). -/
def GraphNode.get_app_uri (n : GraphNode) : Option String :=
  n.app

/-- Constructor `GraphConnection::new(app, extension, subgraph)`: a
connection at the given location with no flows. -/
def GraphConnection.new (app extension subgraph : Option String) :
    GraphConnection :=
  { loc := { app := app, extension := extension, subgraph := subgraph,
             selector := none },
    cmd := none, data := none, audio_frame := none, video_frame := none }

/-- Flow-category selector. The source passes the literal strings
`cmd` / `data` / `audio_frame` / `video_frame` and treats every other
string as unreachable; the embedding closes the type instead. -/
inductive FlowType where
  | cmd
  | data
  | audio_frame
  | video_frame
deriving Repr, DecidableEq

/-! Embedding of `ten_rust::graph::reverse` (reverse-connection
normalizer). -/

/-- Forward connections emitted for one reversed flow: one connection per
source entry, rooted at that source, carrying a single flow of the given
category whose destination is the processed connection location
(inner loop of `process_message_flows`). -/
def forward_conns_of_flow (flow : GraphMessageFlow) (flow_type : FlowType)
    (conn_loc : GraphDestination) : List GraphConnection :=
  flow.source.map (fun src =>
    let forward_conn :=
      GraphConnection.new src.loc.app src.loc.extension src.loc.subgraph
    let forward_flow : GraphMessageFlow :=
      { name := flow.name, names := none,
        dest := [{ loc := conn_loc.loc, msg_conversion := none }],
        source := [] }
    let msg_flows := [forward_flow]
    match flow_type with
    | .cmd => { forward_conn with cmd := some msg_flows }
    | .data => { forward_conn with data := some msg_flows }
    | .audio_frame => { forward_conn with audio_frame := some msg_flows }
    | .video_frame => { forward_conn with video_frame := some msg_flows })

/-- Embedding of `Graph::process_message_flows`. Returns the flow list kept
on the connection (`None` when it would be empty) together with the forward
connections pushed onto the accumulator, in emission order. -/
def process_message_flows (flows : List GraphMessageFlow)
    (flow_type : FlowType) (conn_loc : GraphDestination) :
    Option (List GraphMessageFlow) × List GraphConnection :=
  let new_flows := flows.filter (fun f => f.source.isEmpty)
  let has_source := flows.any (fun f => !f.source.isEmpty)
  let new_connections :=
    flows.foldl (fun acc f =>
      if f.source.isEmpty then acc
      else acc ++ forward_conns_of_flow f flow_type conn_loc) []
  let result := if has_source then new_flows else flows
  (if result.isEmpty then none else some result, new_connections)

/-- Category-wise flow-list merge used when two produced connections share
a location: `existing.get_or_insert_with(Vec::new).extend(incoming)`. -/
def merge_flow_lists (existing incoming : Option (List GraphMessageFlow)) :
    Option (List GraphMessageFlow) :=
  match incoming with
  | none => existing
  | some fs => some (existing.getD [] ++ fs)

/-- One step of the duplicate-connection merge: fold the connection into
the accumulator, merging with an existing entry that has the same location
or appending it otherwise. -/
def merge_into (acc : List GraphConnection) (conn : GraphConnection) :
    List GraphConnection :=
  if acc.any (fun c => c.loc == conn.loc) then
    acc.map (fun c =>
      if c.loc == conn.loc then
        { c with
          cmd := merge_flow_lists c.cmd conn.cmd,
          data := merge_flow_lists c.data conn.data,
          audio_frame := merge_flow_lists c.audio_frame conn.audio_frame,
          video_frame := merge_flow_lists c.video_frame conn.video_frame }
      else c)
  else acc ++ [conn]

/-- Merge of produced connections keyed by location. The source collects
`HashMap` values in unspecified order; the embedding keeps first-insertion
order, and every property proved below is order-insensitive. -/
def merge_connections (conns : List GraphConnection) : List GraphConnection :=
  conns.foldl merge_into []

/-- Category step of the main conversion loop: the source processes a
category only when its optional flow list is populated
(`if let Some(ref flows) = ...`), keeping `None` and emitting nothing
otherwise. -/
def pmf_step (o : Option (List GraphMessageFlow)) (t : FlowType)
    (d : GraphDestination) :
    Option (List GraphMessageFlow) × List GraphConnection :=
  match o with
  | some fs => process_message_flows fs t d
  | none => (none, [])

/-- Per-connection body of the main conversion loop, built from
`pmf_step` applied to each of the four categories. -/
def process_conn (conn : GraphConnection) : List GraphConnection :=
  let conn_dest : GraphDestination :=
    { loc := conn.loc, msg_conversion := none }
  let cmd_step := pmf_step conn.cmd .cmd conn_dest
  let data_step := pmf_step conn.data .data conn_dest
  let audio_step := pmf_step conn.audio_frame .audio_frame conn_dest
  let video_step := pmf_step conn.video_frame .video_frame conn_dest
  let new_conn : GraphConnection :=
    { GraphConnection.new conn.loc.app conn.loc.extension conn.loc.subgraph
      with
      cmd := cmd_step.1, data := data_step.1,
      audio_frame := audio_step.1, video_frame := video_step.1 }
  let kept :=
    if new_conn.cmd.isSome || new_conn.data.isSome ||
        new_conn.audio_frame.isSome || new_conn.video_frame.isSome then
      [new_conn]
    else []
  cmd_step.2 ++ data_step.2 ++ audio_step.2 ++ video_step.2 ++ kept

/-- Reversed-flow test on an optional flow list (the `check_flows` closure
of the source). -/
def check_flows (flows : Option (List GraphMessageFlow)) : Bool :=
  match flows with
  | none => false
  | some f => f.any (fun flow => !flow.source.isEmpty)

/-- Embedding of
`Graph::convert_reversed_connections_to_forward_connections`. Returns
`Ok(None)` when no flow anywhere carries a source entry, and otherwise the
rewritten graph with reversed flows inverted into forward connections and
same-location connections merged. -/
def convert_reversed_connections_to_forward_connections (graph : Graph) :
    Except String (Option Graph) :=
  match graph.connections with
  | none => .ok none
  | some connections =>
    let has_reversed := connections.any (fun conn =>
      check_flows conn.cmd || check_flows conn.data ||
      check_flows conn.audio_frame || check_flows conn.video_frame)
    if !has_reversed then .ok none
    else
      let new_connections :=
        connections.foldl (fun acc conn => acc ++ process_conn conn) []
      let merged := merge_connections new_connections
      .ok (some { graph with connections := some merged })

/-! Embedding of the connection-rewriting part of
`ten_rust::graph::subgraph` (subgraph flattener). -/

/-- Splitting of a character list at every occurrence of a separator,
mirroring `str::split` of Rust. Kept elementary so that concrete
computations unfold. -/
def split_char_list (c : Char) : List Char → List (List Char)
  | [] => [[]]
  | x :: xs =>
    if x == c then [] :: split_char_list c xs
    else
      match split_char_list c xs with
      | [] => [[x]]
      | y :: ys => (x :: y) :: ys

/-- String form of `split_char_list`, the embedding of
`str::split(sep).collect()`. -/
def str_split (c : Char) (s : String) : List String :=
  (split_char_list c s.data).map String.mk

/-- Character-containment test, the embedding of `str::contains(char)`. -/
def str_contains (s : String) (c : Char) : Bool :=
  s.data.any (fun x => x == c)

/-- Colon-notation rewrite applied by the flattener to `extension` and
`subgraph` location fields: when the string contains a colon and splits
into exactly two parts, join the parts with an underscore; otherwise leave
the string unchanged. Factored out of the three identical inline blocks of
`update_connection_source` and `update_message_flows_for_flattening`. -/
def colon_rewrite (e : String) : String :=
  if str_contains e ':' then
    match str_split ':' e with
    | [p, q] => p ++ "_" ++ q
    | _ => e
  else e

/-- Helper closure `process_flows` of `update_connection_source`: resolve
the first flow of a category against the exposed messages of the loaded
subgraph, producing the prefixed extension name or a fatal error. -/
def process_flows_src (subgraph_name : String) (subgraph : Graph)
    (flows : List GraphMessageFlow) (msg_type : GraphExposedMessageType) :
    Except String (Option String) :=
  match flows.head? with
  | none => .ok none
  | some flow =>
    match subgraph.exposed_messages with
    | none => .error ("Subgraph " ++ subgraph_name ++
        " does not have exposed_messages defined")
    | some exposed_messages =>
      match exposed_messages.find? (fun exposed =>
          exposed.msg_type == msg_type && flow.name == some exposed.name)
        with
      | none => .error ("Message of this type is not exposed by subgraph "
          ++ subgraph_name)
      | some exposed =>
        match exposed.extension with
        | none => .error ("Exposed message in subgraph " ++ subgraph_name
            ++ " does not specify an extension")
        | some extension_name =>
          .ok (some (subgraph_name ++ "_" ++ extension_name))

/-- Category step of the subgraph branch of `update_connection_source`:
when the category is populated and the first flow resolves, overwrite the
connection location extension. -/
def apply_exposed_src (subgraph_name : String) (subgraph : Graph)
    (conn : GraphConnection) (flows : Option (List GraphMessageFlow))
    (msg_type : GraphExposedMessageType) : Except String GraphConnection :=
  match flows with
  | none => .ok conn
  | some fs =>
    match process_flows_src subgraph_name subgraph fs msg_type with
    | .error e => .error e
    | .ok none => .ok conn
    | .ok (some extension_name) =>
      .ok { conn with loc :=
        { conn.loc with extension := some extension_name } }

/-- Embedding of `Graph::update_connection_source`: rewrite colon notation
in the origin extension, then resolve an origin `subgraph` field through
the exposed messages of the loaded subgraph and clear it. -/
def update_connection_source (conn : GraphConnection)
    (subgraph_mappings : List (String × Graph)) :
    Except String GraphConnection :=
  let conn :=
    { conn with loc :=
      { conn.loc with extension := conn.loc.extension.map colon_rewrite } }
  match conn.loc.subgraph with
  | none => .ok conn
  | some subgraph_name =>
    match subgraph_mappings.lookup subgraph_name with
    | none => .error ("Subgraph " ++ subgraph_name ++ " not found")
    | some subgraph =>
      match apply_exposed_src subgraph_name subgraph conn conn.cmd
          .CmdOut with
      | .error e => .error e
      | .ok conn =>
        match apply_exposed_src subgraph_name subgraph conn conn.data
            .DataOut with
        | .error e => .error e
        | .ok conn =>
          match apply_exposed_src subgraph_name subgraph conn
              conn.audio_frame .AudioFrameOut with
          | .error e => .error e
          | .ok conn =>
            match apply_exposed_src subgraph_name subgraph conn
                conn.video_frame .VideoFrameOut with
            | .error e => .error e
            | .ok conn =>
              .ok { conn with loc := { conn.loc with subgraph := none } }

/-- Destination update of `update_message_flows_for_flattening`: colon
rewrite on the extension, exposed-message resolution of a `subgraph`
field (destination side, so the `In` direction), then colon rewrite on a
remaining `subgraph` field. -/
def update_dest (subgraph_mappings : List (String × Graph))
    (msg_type_in : GraphExposedMessageType) (flow_name : Option String)
    (dest : GraphDestination) : Except String GraphDestination :=
  let dest :=
    { dest with loc :=
      { dest.loc with extension := dest.loc.extension.map colon_rewrite } }
  let step2 : Except String GraphDestination :=
    match dest.loc.subgraph with
    | none => .ok dest
    | some subgraph_name =>
      match subgraph_mappings.lookup subgraph_name with
      | none => .error ("Subgraph " ++ subgraph_name ++ " not found")
      | some subgraph =>
        match subgraph.exposed_messages with
        | none => .error ("Subgraph " ++ subgraph_name ++
            " does not have exposed_messages defined")
        | some exposed_messages =>
          match exposed_messages.find? (fun exposed =>
              exposed.msg_type == msg_type_in &&
              flow_name == some exposed.name) with
          | none => .error ("Message of this type is not exposed by " ++
              "subgraph " ++ subgraph_name)
          | some exposed =>
            match exposed.extension with
            | none => .error ("Exposed message in subgraph " ++
                subgraph_name ++ " does not specify an extension")
            | some extension_name =>
              .ok { dest with loc :=
                { dest.loc with
                  extension := some
                    (subgraph_name ++ "_" ++ extension_name),
                  subgraph := none } }
  match step2 with
  | .error e => .error e
  | .ok dest =>
    .ok { dest with loc :=
      { dest.loc with subgraph := dest.loc.subgraph.map colon_rewrite } }

/-- Flow-list update of `update_message_flows_for_flattening` for one
category: rewrite every destination of every flow, aborting on the first
error. -/
def update_flows (subgraph_mappings : List (String × Graph))
    (msg_type_in : GraphExposedMessageType)
    (flows : List GraphMessageFlow) :
    Except String (List GraphMessageFlow) :=
  flows.mapM (fun flow => do
    let ds ← flow.dest.mapM (update_dest subgraph_mappings msg_type_in
      flow.name)
    pure { flow with dest := ds })

/-- Optional-category wrapper: a category is processed only when its flow
list is populated. -/
def opt_update (subgraph_mappings : List (String × Graph))
    (msg_type_in : GraphExposedMessageType)
    (flows : Option (List GraphMessageFlow)) :
    Except String (Option (List GraphMessageFlow)) :=
  match flows with
  | none => pure none
  | some fs => do
    pure (some (← update_flows subgraph_mappings msg_type_in fs))

/-- Embedding of `Graph::update_message_flows_for_flattening`: update the
destinations of the four categories in order, aborting on the first
error. -/
def update_message_flows_for_flattening (conn : GraphConnection)
    (subgraph_mappings : List (String × Graph)) :
    Except String GraphConnection := do
  let cmd2 ← opt_update subgraph_mappings .CmdIn conn.cmd
  let data2 ← opt_update subgraph_mappings .DataIn conn.data
  let audio2 ← opt_update subgraph_mappings .AudioFrameIn conn.audio_frame
  let video2 ← opt_update subgraph_mappings .VideoFrameIn conn.video_frame
  return { conn with
           cmd := cmd2,
           data := data2,
           audio_frame := audio2,
           video_frame := video2 }

/-- Destination image of the colon rewrite, used to state the flattening
theorems. -/
def dest_colon_rewrite (d : GraphDestination) : GraphDestination :=
  { d with loc :=
    { d.loc with extension := d.loc.extension.map colon_rewrite } }

/-- Flow image of the destination colon rewrite. -/
def flow_dest_rewrite (f : GraphMessageFlow) : GraphMessageFlow :=
  { f with dest := f.dest.map dest_colon_rewrite }

/-! Embedding of `ten_rust::path` (URI resolver), on a Unix path model. -/

/-- Absolute-path test: on the Unix model of `std::path`, a path is
absolute exactly when it starts with a slash. -/
def is_absolute (s : String) : Bool :=
  match s.data with
  | '/' :: _ => true
  | _ => false

/-- Path component in the sense of `std::path::Component`, restricted to
the Unix variants reachable here (the root is tracked separately by
`is_absolute`). -/
inductive PathComp where
  | curDir
  | parentDir
  | normal (name : String)
deriving Repr, DecidableEq

/-- Classification of one non-empty path segment; `.` maps to `none`
because the caller decides whether a current-directory segment survives. -/
def seg_comp (x : String) : Option PathComp :=
  if x = "." then none
  else if x = ".." then some .parentDir
  else some (.normal x)

/-- Components of a path string, following `Path::components`: empty
segments (repeated or trailing separators) vanish, `.` segments are
normalized away except a leading `.` of a relative path. -/
def path_components (s : String) : List PathComp :=
  let segs :=
    ((split_char_list '/' s.data).map String.mk).filter (fun x => x ≠ "")
  match segs, is_absolute s with
  | "." :: rest, false => .curDir :: rest.filterMap seg_comp
  | _, _ => segs.filterMap seg_comp

/-- Embedding of `normalize_path_components`: resolve `.` and `..`
components of a joined path without touching the file system. A `..`
pops the accumulator whenever it holds more than one entry, or exactly
one entry different from the root marker; it is appended only when the
accumulator is empty; and it is ignored at the root. -/
def normalize_path_components (path : String) : Except String String :=
  let init : List String := if is_absolute path then [""] else []
  let components := (path_components path).foldl
    (fun components comp =>
      match comp with
      | .curDir => components
      | .parentDir =>
        match components with
        | [] => [".."]
        | [x] => if x ≠ "" then [] else components
        | _ => components.dropLast
      | .normal name => components ++ [name]) init
  if components.isEmpty then .ok "."
  else if is_absolute path then
    if components == [""] then .ok "/"
    else
      let rest := components.drop 1
      if rest.isEmpty then .ok "/"
      else .ok ("/" ++ String.intercalate "/" rest)
  else .ok (String.intercalate "/" components)

/-- Scheme of a string that parses as a URL. Modelled from the spec: the
`url` crate parser is an external collaborator; a string is treated as a
URL exactly when it starts with a valid scheme (a letter followed by
letters, digits, `+`, `-` or `.`) and a colon, and the scheme is
lowercased, exactly as `Url::parse` reports it. -/
def url_scheme (s : String) : Option String :=
  let pre := s.data.takeWhile (fun c => c != ':')
  if pre.length == s.data.length then none
  else
    match pre with
    | [] => none
    | c :: rest =>
      if c.isAlpha && rest.all (fun x =>
          x.isAlphanum || x == '+' || x == '-' || x == '.') then
        some (String.mk ((c :: rest).map Char.toLower))
      else none

/-- Embedding of `Path::join` on the Unix model: an absolute right side
replaces the left side; otherwise the sides are joined with a single
separator. -/
def path_join (base p : String) : String :=
  if is_absolute p then p
  else if base = "" then p
  else if base.data.getLast? == some '/' then base ++ p
  else base ++ "/" ++ p

/-- Join of a relative reference onto a base URL. Modelled from the spec:
if the base path lacks a trailing slash one is appended before joining,
and the reference is then appended. -/
def url_join (base_dir import_uri : String) : String :=
  let base2 :=
    if base_dir.data.getLast? == some '/' then base_dir
    else base_dir ++ "/"
  base2 ++ import_uri

/-- Embedding of `get_real_path_from_import_uri`: reject an absolute
imported path, pass URLs of the accepted schemes through, require a
non-empty base, join onto a URL base, and otherwise normalize the
file-system join of base and import path. -/
def get_real_path_from_import_uri (import_uri base_dir : String) :
    Except String String :=
  let is_abs := is_absolute import_uri ||
    (match import_uri.data with
     | _ :: ':' :: '\\' :: _ => true
     | _ => false)
  if is_abs then
    .error ("Absolute paths are not supported in import_uri: " ++
      import_uri)
  else
    match url_scheme import_uri with
    | some scheme =>
      if scheme == "http" || scheme == "https" then .ok import_uri
      else if scheme == "file" then .ok import_uri
      else .error ("Unsupported URL scheme in import_uri: " ++ import_uri)
    | none =>
      if base_dir == "" then
        .error ("Base directory is not provided in import_uri: " ++
          import_uri)
      else
        match url_scheme base_dir with
        | some bscheme =>
          if bscheme.length > 1 && !(bscheme == "c") then
            .ok (url_join base_dir import_uri)
          else normalize_path_components (path_join base_dir import_uri)
        | none => normalize_path_components (path_join base_dir import_uri)

/-- Rendering of a component list back to a path string. -/
def render_components (isAbs : Bool) (ps : List PathComp) : String :=
  let seg := fun (c : PathComp) =>
    match c with
    | .curDir => "."
    | .parentDir => ".."
    | .normal n => n
  if isAbs then "/" ++ String.intercalate "/" (ps.map seg)
  else String.intercalate "/" (ps.map seg)

/-- Embedding of `Path::parent` followed by `to_string_lossy`: drop the
final component; the empty path and the bare root have no parent. -/
def path_parent (s : String) : Option String :=
  match path_components s with
  | [] => none
  | ps => some (render_components (is_absolute s) ps.dropLast)

/-! Embedding of `ten_rust::graph::graph_info` (graph loader and graph
info). -/

/-- Embedding of `load_graph_from_uri`. The file read plus JSON parse is
the parameter `readGraph`; the HTTP and file-URL loaders, which perform
network and file-system effects, are the parameters `http_load` and
`file_load`, each returning the loaded graph together with the updated
out-parameter. The third component of the state is the `new_base_dir`
out-parameter, returned updated. -/
def load_graph_from_uri (readGraph : String → Except String Graph)
    (http_load file_load :
      String → Option String → Except String Graph × Option String)
    (uri : String) (base_dir : Option String)
    (new_base_dir : Option String) :
    Except String Graph × Option String :=
  match url_scheme uri with
  | some scheme =>
    if scheme == "http" || scheme == "https" then http_load uri new_base_dir
    else if scheme == "file" then file_load uri new_base_dir
    else (.error ("Unsupported URL scheme in import_uri: " ++ uri),
      new_base_dir)
  | none =>
    if is_absolute uri then (readGraph uri, new_base_dir)
    else
      match base_dir with
      | none =>
        (.error "base_dir cannot be None when uri is a relative path",
          new_base_dir)
      | some bd =>
        let new_path := path_join bd uri
        let nb :=
          match path_parent new_path with
          | some parent_dir =>
            if new_base_dir.isSome then some parent_dir else new_base_dir
          | none => new_base_dir
        (readGraph new_path, nb)

/-- Graph wrapper with optional external reference
(`ten_rust::graph::graph_info::GraphInfo`). The belonging-package type is
uninterpreted here. -/
structure GraphInfo where
  name : Option String
  auto_start : Option Bool
  graph : Graph
  import_uri : Option String
  app_base_dir : Option String
  belonging_pkg_type : Option String
  belonging_pkg_name : Option String
deriving Repr, DecidableEq

/-- Populated-optional-list test used by the mutual-exclusion checks of
`GraphInfo::validate_and_complete_and_flatten`. -/
def opt_list_nonempty {α : Type} (o : Option (List α)) : Bool :=
  match o with
  | some l => !l.isEmpty
  | none => false

/-- Mutual-exclusion checks between `import_uri` and the inline graph
fields, in source order; returns the first error message, if any. -/
def import_uri_field_conflict (gi : GraphInfo) : Option String :=
  if gi.import_uri.isSome then
    if !gi.graph.nodes.isEmpty then
      some "When import_uri is specified, nodes must not be present"
    else if opt_list_nonempty gi.graph.connections then
      some "When import_uri is specified, connections must not be present"
    else if opt_list_nonempty gi.graph.exposed_messages then
      some
        "When import_uri is specified, exposed_messages must not be present"
    else if opt_list_nonempty gi.graph.exposed_properties then
      some
        "When import_uri is specified, exposed_properties must not be present"
    else none
  else none

/-- Embedding of `GraphInfo::validate_and_complete_and_flatten`: enforce
the mutual exclusion, load and substitute the external graph when
`import_uri` is set (the out-parameter slot is passed as `None`, so no
base-dir update happens), then delegate to the graph-level
validate-complete-flatten, embedded as the parameter `vcf` because its
body lives outside the sources treated here. -/
def GraphInfo.validate_and_complete_and_flatten
    (readGraph : String → Except String Graph)
    (http_load file_load :
      String → Option String → Except String Graph × Option String)
    (vcf : Graph → Option String → Except String Graph)
    (gi : GraphInfo) : Except String GraphInfo :=
  match import_uri_field_conflict gi with
  | some e => .error e
  | none =>
    let step : Except String GraphInfo :=
      match gi.import_uri with
      | some import_uri =>
        match (load_graph_from_uri readGraph http_load file_load
            import_uri gi.app_base_dir none).1 with
        | .error e => .error e
        | .ok g => .ok { gi with graph := g }
      | none => .ok gi
    match step with
    | .error e => .error e
    | .ok gi2 =>
      match vcf gi2.graph gi2.app_base_dir with
      | .error e => .error e
      | .ok g2 => .ok { gi2 with graph := g2 }

/-! Embedding of `ten_rust::pkg_info::manifest::interface` (manifest
interface flattener). -/

/-- Interface entry of a manifest API: an import URI plus the base
directory it resolves against. -/
structure ManifestApiInterface where
  import_uri : String
  base_dir : String
deriving Repr, DecidableEq

/-- Manifest API. Modelled from the spec: the `ManifestApi` type is
declared in `api.rs`, outside the sources embedded here; per the spec it
carries API schema definitions plus an optional interface list, and the
flattening algorithm inspects only the interface list, so the schema
payload is omitted. -/
structure ManifestApi where
  interface : Option (List ManifestApiInterface)
deriving Repr, DecidableEq

/-- Embedding of `load_interface`. The visited set (`HashSet<String>` of
canonical paths, `&mut`) is passed and returned explicitly as a list. The
HTTP and file-URL loaders and the plain-file read-plus-parse are effect
parameters; for the plain-path case the source calls
`Path::parent().unwrap()`, whose panic on a parentless path is modelled
as an error value. -/
def load_interface
    (http_load_api file_load_api read_api :
      String → Except String ManifestApi)
    (iface : ManifestApiInterface) (interface_set : List String) :
    Except String (ManifestApi × List String) :=
  match get_real_path_from_import_uri iface.import_uri iface.base_dir with
  | .error e => .error e
  | .ok real_path =>
    if interface_set.contains real_path then
      .error ("Circular reference detected: " ++ real_path)
    else
      let interface_set := interface_set ++ [real_path]
      match url_scheme real_path with
      | some scheme =>
        if scheme == "http" || scheme == "https" then
          match http_load_api real_path with
          | .error e => .error e
          | .ok api => .ok (api, interface_set)
        else if scheme == "file" then
          match file_load_api real_path with
          | .error e => .error e
          | .ok api => .ok (api, interface_set)
        else
          .error ("Unsupported URL scheme in import_uri: " ++
            iface.import_uri)
      | none =>
        match read_api real_path with
        | .error e => .error e
        | .ok api =>
          match path_parent real_path with
          | none =>
            .error "interface file path has no parent directory"
          | some parent_dir =>
            let new_ifaces := api.interface.map
              (List.map (fun i => { i with base_dir := parent_dir }))
            .ok ({ api with interface := new_ifaces }, interface_set)

/-- Loader abstraction used by `ManifestApi::flatten`: takes an interface
entry and the visited set, returns the loaded API and the updated set. -/
def InterfaceLoader : Type :=
  ManifestApiInterface → List String →
    Except String (ManifestApi × List String)

/-- Loop of `flatten_internal` over the interface entries of one API:
load each entry and flatten the loaded API through `step`, threading the
accumulated APIs and the visited set and aborting on the first error. -/
def flatten_loop
    (step : ManifestApi → List ManifestApi → List String →
      Except String (List ManifestApi × List String))
    (loader : InterfaceLoader) :
    List ManifestApiInterface → List ManifestApi → List String →
    Except String (List ManifestApi × List String)
  | [], acc, set => .ok (acc, set)
  | i :: rest, acc, set =>
    match loader i set with
    | .error e => .error e
    | .ok (loaded, set2) =>
      match step loaded acc set2 with
      | .error e => .error e
      | .ok (acc2, set3) => flatten_loop step loader rest acc2 set3

/-- Embedding of `ManifestApi::flatten_internal`: push the current API,
stop when it has no interfaces, otherwise recurse through the loader into
every interface. Rust recurses without bound; the embedding carries a
fuel counter whose exhaustion is an error. -/
def flatten_internal (loader : InterfaceLoader) :
    Nat → ManifestApi → List ManifestApi → List String →
    Except String (List ManifestApi × List String)
  | 0, _, _, _ => .error "recursion limit exceeded"
  | fuel + 1, api, flattened_apis, interface_set =>
    let flattened_apis := flattened_apis ++ [api]
    if !(api.interface.isSome && !(api.interface.getD []).isEmpty) then
      .ok (flattened_apis, interface_set)
    else
      flatten_loop (flatten_internal loader fuel) loader
        (api.interface.getD []) flattened_apis interface_set

/-- Embedding of `ManifestApi::flatten`: `Ok(None)` when there is no
interface entry; otherwise run `flatten_internal` and, on its success,
fail with the literal `Not implemented` error, because the merge of the
flattened APIs is unimplemented in the source. -/
def ManifestApi.flatten (loader : InterfaceLoader) (fuel : Nat)
    (api : ManifestApi) : Except String (Option ManifestApi) :=
  if api.interface.isNone || (api.interface.getD []).isEmpty then .ok none
  else
    match flatten_internal loader fuel api [] [] with
    | .error e => .error e
    | .ok _ => .error "Not implemented"

/-- All message flows of a connection, across the four categories. -/
def conn_flows (c : GraphConnection) : List GraphMessageFlow :=
  c.cmd.getD [] ++ c.data.getD [] ++ c.audio_frame.getD [] ++
    c.video_frame.getD []

/-! Embedding of `ten_rust::graph::check::subgraph_references`
(subgraph-reference validation). -/

/-- Prefix of an extension name before its first colon, used by the
reference checker (`extension_name.find(':')` and slicing). -/
def prefix_before_colon (en : String) : String :=
  String.mk (en.data.takeWhile (fun c => c != ':'))

/-- Unique subgraph identifier `app_uri:name` built by the checker. -/
def subgraph_identifier (app : Option String) (name : String) : String :=
  app.getD "" ++ ":" ++ name

/-- Missing-reference test for one location against the collected
subgraph identifiers: a `subgraph` field must resolve, and an extension
of the form `xxx:yyy` must have prefix `xxx` resolve unless the prefix is
the reserved built-in namespace `ten`. -/
def loc_subgraph_ref_missing (all_subgraphs : List String)
    (loc : GraphLoc) : Bool :=
  (match loc.subgraph with
   | some sg => !(all_subgraphs.contains (subgraph_identifier loc.app sg))
   | none => false) ||
  (match loc.extension with
   | some en =>
     if str_contains en ':' then
       let sg := prefix_before_colon en
       if sg == "ten" then false
       else !(all_subgraphs.contains (subgraph_identifier loc.app sg))
     else false
   | none => false)

/-- Embedding of `Graph::check_subgraph_references_exist`: every subgraph
referenced by a connection origin or destination, directly or through
`xxx:yyy` extension namespacing, must be declared as a subgraph node.
The source interpolates the offending index path into the message; the
embedding reports a fixed message. -/
def check_subgraph_references_exist (graph : Graph) :
    Except String Unit :=
  match graph.connections with
  | none => .ok ()
  | some connections =>
    let all_subgraphs :=
      (graph.nodes.filter (fun n => n.type_ == GraphNodeType.Subgraph)).map
        (fun n => subgraph_identifier n.get_app_uri n.name)
    if connections.any (fun conn =>
        loc_subgraph_ref_missing all_subgraphs conn.loc ||
        (conn_flows conn).any (fun flow =>
          flow.dest.any (fun dest =>
            loc_subgraph_ref_missing all_subgraphs dest.loc))) then
      .error "The subgraph referenced in connections is not defined in nodes."
    else .ok ()

/-! Embedding of `ten_manager::graph::connections::add` (the
add-connection mutator), together with the helpers it calls whose bodies
are declared outside the embedded sources. -/

/-- Message type of the mutator (`ten_rust::pkg_info::message::MsgType`). -/
inductive MsgType where
  | Cmd
  | Data
  | AudioFrame
  | VideoFrame
deriving Repr, DecidableEq

/-- Embedding of `node_matches`: whether a location refers to the node
with the given type, name and app. -/
def node_matches (loc : GraphLoc) (node_type : GraphNodeType)
    (node_name : String) (node_app : Option String) : Bool :=
  if node_type == GraphNodeType.Extension then
    loc.extension == some node_name && loc.app == node_app
  else if node_type == GraphNodeType.Subgraph then
    loc.subgraph == some node_name
  else if node_type == GraphNodeType.Selector then
    loc.selector == some node_name
  else false

/-- First-match destination insertion of `add_to_flow`: the first flow
whose `name` equals the new flow name receives the new destination unless
an equal destination (same extension and app) is already present; with no
matching flow the new flow is appended. The source indexes
`message_flow.dest[0]`, which its only caller always populates; an empty
destination list is modelled as leaving the flow unchanged. -/
def add_dest_to_first_match (flows : List GraphMessageFlow)
    (message_flow : GraphMessageFlow) : List GraphMessageFlow :=
  match flows with
  | [] => [message_flow]
  | flow :: rest =>
    if flow.name == message_flow.name then
      (match message_flow.dest with
       | [] => flow
       | d0 :: _ =>
         if flow.dest.any (fun dest =>
             dest.loc.extension == d0.loc.extension &&
             dest.loc.app == d0.loc.app) then flow
         else { flow with dest := flow.dest ++ [d0] }) :: rest
    else flow :: add_dest_to_first_match rest message_flow

/-- Embedding of `add_to_flow`: initialize the collection when absent,
then merge the flow by the first-match rule. -/
def add_to_flow (flow_collection : Option (List GraphMessageFlow))
    (message_flow : GraphMessageFlow) : Option (List GraphMessageFlow) :=
  some (add_dest_to_first_match (flow_collection.getD []) message_flow)

/-- Embedding of `add_message_flow_to_connection` (infallible in the
source, which wraps the result in `Ok`). -/
def add_message_flow_to_connection (connection : GraphConnection)
    (msg_type : MsgType) (message_flow : GraphMessageFlow) :
    GraphConnection :=
  match msg_type with
  | .Cmd =>
    { connection with cmd := add_to_flow connection.cmd message_flow }
  | .Data =>
    { connection with data := add_to_flow connection.data message_flow }
  | .AudioFrame =>
    { connection with
      audio_frame := add_to_flow connection.audio_frame message_flow }
  | .VideoFrame =>
    { connection with
      video_frame := add_to_flow connection.video_frame message_flow }

/-- Flow collection of a connection for a message type, as selected by
`check_connection_exists`. -/
def msg_flows_of (conn : GraphConnection) (msg_type : MsgType) :
    Option (List GraphMessageFlow) :=
  match msg_type with
  | .Cmd => conn.cmd
  | .Data => conn.data
  | .AudioFrame => conn.audio_frame
  | .VideoFrame => conn.video_frame

/-- Embedding of `check_connection_exists`: error when some connection
matches the source node and holds, in the collection of the message type,
a flow whose `name` equals one of the requested message names with a
destination matching the destination node. Only the `name` field is
consulted; names stored in `names` are never compared. The source
interpolates the match into the message; the embedding reports a fixed
message. -/
def check_connection_exists (graph : Graph)
    (src_node_type : GraphNodeType) (src_node_name : String)
    (src_node_app : Option String) (msg_type : MsgType)
    (msg_name : List String) (dest_node_type : GraphNodeType)
    (dest_node_name : String) (dest_node_app : Option String) :
    Except String Unit :=
  match graph.connections with
  | none => .ok ()
  | some connections =>
    if connections.any (fun conn =>
        node_matches conn.loc src_node_type src_node_name src_node_app &&
        ((msg_flows_of conn msg_type).getD []).any (fun flow =>
          msg_name.any (fun name =>
            flow.name == some name &&
            flow.dest.any (fun dest =>
              node_matches dest.loc dest_node_type dest_node_name
                dest_node_app)))) then
      .error "Connection already exists"
    else .ok ()

/-- Semantic duplicate-connection condition checked by
`check_connection_exists`: some connection matches the source node and
holds, in the collection of the message type, a flow whose `name` field
equals one of the requested names, with a destination matching the
destination node. -/
def connection_exists_pred (graph : Graph) (st : GraphNodeType)
    (sn : String) (sa : Option String) (mt : MsgType)
    (ns : List String) (dt : GraphNodeType) (dn : String)
    (da : Option String) : Prop :=
  ∃ conn ∈ graph.connections.getD [],
    node_matches conn.loc st sn sa = true ∧
    ∃ flow ∈ (msg_flows_of conn mt).getD [],
      ∃ n ∈ ns, flow.name = some n ∧
        ∃ d ∈ flow.dest, node_matches d.loc dt dn da = true

/-- Node type of a location. Modelled from the spec:
`GraphLoc::get_node_type` lives in `connection.rs`, outside the embedded
sources; exactly one of extension, subgraph and selector must be present
and determines the type. -/
def GraphLoc.get_node_type (loc : GraphLoc) :
    Except String GraphNodeType :=
  match loc.extension, loc.subgraph, loc.selector with
  | some _, none, none => .ok GraphNodeType.Extension
  | none, some _, none => .ok GraphNodeType.Subgraph
  | none, none, some _ => .ok GraphNodeType.Selector
  | _, _, _ =>
    .error "location must name exactly one of extension, subgraph, selector"

/-- Node name of a location. Modelled from the spec, as for
`get_node_type`. -/
def GraphLoc.get_node_name (loc : GraphLoc) : Except String String :=
  match loc.extension, loc.subgraph, loc.selector with
  | some n, none, none => .ok n
  | none, some n, none => .ok n
  | none, none, some n => .ok n
  | _, _, _ =>
    .error "location must name exactly one of extension, subgraph, selector"

/-- Existence check of a location against the node list. Modelled from
the spec (verify both endpoints exist as nodes), using the matching
predicate `node_matches` of the source. -/
def GraphLoc.check_node_exists (loc : GraphLoc) (graph : Graph) :
    Except String Unit :=
  if graph.nodes.any (fun n => node_matches loc n.type_ n.name n.app) then
    .ok ()
  else .error "node referenced by the location does not exist in the graph"

/-- Origin-equality used to find the connection of the source location.
Modelled from the spec: the insertion step selects the connection whose
origin equals the source location. -/
def GraphLoc.matches (a b : GraphLoc) : Bool :=
  a == b

/-- Inputs of the connection-schema validation
(`MsgConversionValidateInfo` of `ten_manager`). -/
structure MsgConversionValidateInfo where
  src_app : Option String
  src_extension : String
  msg_type : MsgType
  msg_name : String
  dest_app : Option String
  dest_extension : String
  msg_conversion : Option MsgAndResultConversion

/-- Locations appearing in a connection: the origin plus every
destination and flow-source location. -/
def conn_locs (c : GraphConnection) : List GraphLoc :=
  c.loc :: (conn_flows c).flatMap
    (fun f => f.dest.map (fun d => d.loc) ++ f.source.map (fun s => s.loc))

/-- Duplicate test on a list through its `BEq` instance. -/
def has_dup {α : Type} [BEq α] : List α → Bool
  | [] => false
  | x :: xs => xs.contains x || has_dup xs

/-- Graph-level validation. Modelled from the spec:
`Graph::validate_and_complete` lives outside the embedded sources; per
the spec it classifies the app-declaration mode over all extension nodes,
forbids the literal localhost in every app slot with a mode-specific
message, requires a matching node for every location used in any
connection, validates subgraph references (embedded above from the
source), and rejects duplicate flow names within a collection and
duplicate destinations within a flow. -/
def validate_and_complete (graph : Graph) : Except String Unit :=
  let ext_nodes := graph.nodes.filter
    (fun n => n.type_ == GraphNodeType.Extension)
  let declared := (ext_nodes.filter (fun n => n.app.isSome)).length
  if declared != 0 && declared != ext_nodes.length then
    .error "graph mixes nodes with and without an app declaration"
  else
    let single_app := declared == 0
    if graph.nodes.any (fun n => n.app == some "localhost") ||
        (graph.connections.getD []).any (fun c =>
          (conn_locs c).any (fun l => l.app == some "localhost")) then
      .error (if single_app then
        "localhost is not allowed as an explicit app in a single-app graph"
      else
        "localhost is not allowed as an explicit app in a multi-app graph")
    else if (graph.connections.getD []).any (fun c =>
        (conn_locs c).any (fun l =>
          !(graph.nodes.any (fun n =>
            node_matches l n.type_ n.name n.app)))) then
      .error "a location used in connections has no matching node"
    else
      match check_subgraph_references_exist graph with
      | .error e => .error e
      | .ok _ =>
        if (graph.connections.getD []).any (fun c =>
            [c.cmd, c.data, c.audio_frame, c.video_frame].any (fun o =>
              has_dup ((o.getD []).filterMap (fun f => f.name)))) then
          .error "two message flows in one collection share a name"
        else if (graph.connections.getD []).any (fun c =>
            (conn_flows c).any (fun f =>
              has_dup (f.dest.map (fun d => d.loc)))) then
          .error "two destinations in one flow share a location"
        else .ok ()

/-- Insertion step of `graph_add_connection`: find the first connection
whose origin matches the source location and merge the flow into it; when
none matches, push a fresh connection for the source and merge into
that. -/
def add_flow_to_first_matching_conn (connections : List GraphConnection)
    (src : GraphLoc) (msg_type : MsgType)
    (message_flow : GraphMessageFlow) : List GraphConnection :=
  match connections with
  | [] => [add_message_flow_to_connection
      { loc := src, cmd := none, data := none, audio_frame := none,
        video_frame := none } msg_type message_flow]
  | conn :: rest =>
    if conn.loc.matches src then
      add_message_flow_to_connection conn msg_type message_flow :: rest
    else conn :: add_flow_to_first_matching_conn rest src msg_type
      message_flow

/-- Embedding of `graph_add_connection`. The schema validation
(`validate_connection_schema`, outside the embedded sources) is the
parameter `validate_schema`; the package cache and base directory feed
only that validation and are folded into the parameter. The result is
the updated graph, and an error carries the message together with the
final state of the mutable graph argument. The source panics on
`&msg_name[0]` when both endpoints are extensions and the name list is
empty; the panic is modelled as an error. -/
def graph_add_connection
    (validate_schema : MsgConversionValidateInfo → Except String Unit)
    (graph : Graph) (src : GraphLoc) (dest : GraphLoc)
    (msg_type : MsgType) (msg_name : List String)
    (msg_conversion : Option MsgAndResultConversion) :
    Except (String × Graph) Graph :=
  let original_graph := graph
  match src.get_node_type with
  | .error e => .error (e, graph)
  | .ok src_node_type =>
  match dest.get_node_type with
  | .error e => .error (e, graph)
  | .ok dest_node_type =>
  match src.get_node_name with
  | .error e => .error (e, graph)
  | .ok src_node_name =>
  match dest.get_node_name with
  | .error e => .error (e, graph)
  | .ok dest_node_name =>
  match GraphLoc.check_node_exists src graph with
  | .error e => .error (e, graph)
  | .ok _ =>
  match GraphLoc.check_node_exists dest graph with
  | .error e => .error (e, graph)
  | .ok _ =>
  match check_connection_exists graph src_node_type src_node_name src.app
      msg_type msg_name dest_node_type dest_node_name dest.app with
  | .error e => .error (e, graph)
  | .ok _ =>
  let schema_result : Except String Unit :=
    if src_node_type == GraphNodeType.Extension &&
        dest_node_type == GraphNodeType.Extension then
      match msg_name.head? with
      | some name0 => validate_schema
          { src_app := src.app, src_extension := src_node_name,
            msg_type := msg_type, msg_name := name0,
            dest_app := dest.app, dest_extension := dest_node_name,
            msg_conversion := msg_conversion }
      | none => .error "index out of bounds in msg_name"
    else .ok ()
  match schema_result with
  | .error e => .error (e, graph)
  | .ok _ =>
  let graph :=
    if graph.connections.isNone then { graph with connections := some [] }
    else graph
  if msg_name.isEmpty then .error ("Message name is empty", graph)
  else
    let destination : GraphDestination :=
      { loc := dest, msg_conversion := msg_conversion }
    let message_flow : GraphMessageFlow :=
      if msg_name.length == 1 then
        { name := some (msg_name.headD ""), names := none,
          dest := [destination], source := [] }
      else
        { name := none, names := some msg_name, dest := [destination],
          source := [] }
    let new_conns := add_flow_to_first_matching_conn
      (graph.connections.getD []) src msg_type message_flow
    let graph := { graph with connections := some new_conns }
    match validate_and_complete graph with
    | .ok _ => .ok graph
    | .error e => .error (e, original_graph)

/-! Statement helpers and concrete example inputs. -/

/-- A graph is forward when no message flow of any connection carries a
source entry. -/
def all_sources_empty (g : Graph) : Prop :=
  ∀ c ∈ g.connections.getD [], ∀ f ∈ conn_flows c, f.source = []

instance (g : Graph) : Decidable (all_sources_empty g) := by
  unfold all_sources_empty
  infer_instance

/-- Location naming an extension, with no app and no other field. -/
def ext_loc (e : String) : GraphLoc :=
  { app := none, extension := some e, subgraph := none, selector := none }

/-- Extension node named `n` with addon `addon_n` and no app. -/
def ext_node (n : String) : GraphNode :=
  { type_ := .Extension, name := n, addon := some ("addon_" ++ n),
    extension_group := none, app := none, property := none,
    source_uri := none }

/-- Reversed cmd flow named `hello` whose source list holds extension
`another_ext` and whose destination list is empty. -/
def hello_rev_flow : GraphMessageFlow :=
  { name := some "hello", names := none, dest := [],
    source := [{ loc := ext_loc "another_ext" }] }

/-- Connection rooted at `some_extension` declaring the reversed `hello`
cmd flow. -/
def dup_rev_conn : GraphConnection :=
  { loc := ext_loc "some_extension", cmd := some [hello_rev_flow],
    data := none, audio_frame := none, video_frame := none }

/-- The duplicate-reverse-merge scenario: two connections rooted at
`some_extension`, each declaring `cmd hello` with source `another_ext`. -/
def dup_reverse_graph : Graph :=
  { nodes := [ext_node "some_extension", ext_node "another_ext"],
    connections := some [dup_rev_conn, dup_rev_conn],
    exposed_messages := none, exposed_properties := none }

/-- Forward cmd flow named `hello` targeting `some_extension`. -/
def hello_fwd_flow : GraphMessageFlow :=
  { name := some "hello", names := none,
    dest := [{ loc := ext_loc "some_extension", msg_conversion := none }],
    source := [] }

/-- Merged connection the normalizer produces for `dup_reverse_graph`: a
single connection rooted at `another_ext` holding two identical `hello`
flows, because same-name flows are left unmerged in this pass. -/
def dup_merged_conn : GraphConnection :=
  { loc := ext_loc "another_ext",
    cmd := some [hello_fwd_flow, hello_fwd_flow],
    data := none, audio_frame := none, video_frame := none }

/-- Graph the normalizer produces for `dup_reverse_graph`. -/
def dup_reverse_result : Graph :=
  { nodes := [ext_node "some_extension", ext_node "another_ext"],
    connections := some [dup_merged_conn],
    exposed_messages := none, exposed_properties := none }

/-- Forward-only example graph: one connection from `a` to `b` whose flow
has an empty source list. -/
def forward_graph_example : Graph :=
  { nodes := [ext_node "a", ext_node "b"],
    connections := some [
      { loc := ext_loc "a",
        cmd := some [{ name := some "X", names := none,
                       dest := [{ loc := ext_loc "b",
                                  msg_conversion := none }],
                       source := [] }],
        data := none, audio_frame := none, video_frame := none }],
    exposed_messages := none, exposed_properties := none }

/-- Connection whose origin extension uses the reserved built-in form
`ten:foo`. -/
def ten_colon_conn : GraphConnection :=
  { loc := { app := none, extension := some "ten:foo", subgraph := none,
             selector := none },
    cmd := none, data := none, audio_frame := none, video_frame := none }

/-- Connection exercising the colon rewrite on both the origin and a
destination, the destination using the reserved `ten:` form. -/
def colon_conn_example : GraphConnection :=
  { loc := { app := none, extension := some "sub:src", subgraph := none,
             selector := none },
    cmd := some [{ name := some "m", names := none,
                   dest := [{ loc := { app := none,
                                       extension := some "ten:bar",
                                       subgraph := none, selector := none },
                              msg_conversion := none }],
                   source := [] }],
    data := none, audio_frame := none, video_frame := none }

/-- Graph with no nodes and no optional sections. -/
def empty_graph : Graph :=
  { nodes := [], connections := none, exposed_messages := none,
    exposed_properties := none }

/-- Stub file loader returning a fixed graph for every path. -/
def stub_read_graph : String → Except String Graph :=
  fun _ => .ok forward_graph_example

/-- Stub URL loader that fails, leaving the out-parameter unchanged. -/
def stub_url_load :
    String → Option String → Except String Graph × Option String :=
  fun u nb => (.error ("URL loading unavailable in this model: " ++ u), nb)

/-- Stub graph-level validate-complete-flatten accepting every graph. -/
def stub_vcf : Graph → Option String → Except String Graph :=
  fun g _ => .ok g

/-- Graph info carrying both an import_uri and inline nodes. -/
def gi_conflict : GraphInfo :=
  { name := none, auto_start := none, graph := forward_graph_example,
    import_uri := some "g.json", app_base_dir := some "base",
    belonging_pkg_type := none, belonging_pkg_name := none }

/-- Graph info carrying an import_uri and an empty inline graph. -/
def gi_clean : GraphInfo :=
  { name := none, auto_start := none, graph := empty_graph,
    import_uri := some "g.json", app_base_dir := some "base",
    belonging_pkg_type := none, belonging_pkg_name := none }

/-- Interface entry resolving to `/base/a.json`. -/
def iface_a : ManifestApiInterface :=
  { import_uri := "a.json", base_dir := "/base" }

/-- Manifest API with a single interface entry. -/
def api_with_iface : ManifestApi := { interface := some [iface_a] }

/-- Manifest API with no interface entries. -/
def leaf_api : ManifestApi := { interface := none }

/-- Interface loader that always succeeds with the interface-free API and
an unchanged visited set. -/
def ok_iface_loader : InterfaceLoader :=
  fun _ set => .ok (leaf_api, set)

/-- Stub file or URL reader returning the interface-free API. -/
def stub_api_load : String → Except String ManifestApi :=
  fun _ => .ok leaf_api

/-- Schema validation stub accepting every connection, modelling a
package cache in which the endpoints and message schemas are
compatible. -/
def schema_ok : MsgConversionValidateInfo → Except String Unit :=
  fun _ => .ok ()

/-- Subgraph node named `s`. -/
def subgraph_node_s : GraphNode :=
  { type_ := .Subgraph, name := "s", addon := none,
    extension_group := none, app := none, property := none,
    source_uri := some "uri" }

/-- Location referring to the subgraph node `s`. -/
def sub_loc_s : GraphLoc :=
  { app := none, extension := none, subgraph := some "s",
    selector := none }

/-- Graph holding only the subgraph node `s`, with `connections`
absent. -/
def g_conn_none : Graph :=
  { nodes := [subgraph_node_s], connections := none,
    exposed_messages := none, exposed_properties := none }

/-- Graph with extension nodes `a` and `b` and no connections. -/
def g0_ab : Graph :=
  { nodes := [ext_node "a", ext_node "b"], connections := none,
    exposed_messages := none, exposed_properties := none }

/-- Flow from a multi-element add call: the names live in `names`, and
`name` is empty. -/
def names_flow : GraphMessageFlow :=
  { name := none, names := some ["X", "Y"],
    dest := [{ loc := ext_loc "b", msg_conversion := none }],
    source := [] }

/-- Connection of `a` holding the multi-name flow. -/
def names_conn : GraphConnection :=
  { loc := ext_loc "a", cmd := some [names_flow], data := none,
    audio_frame := none, video_frame := none }

/-- Graph after adding `a --cmd:[X,Y]--> b` to `g0_ab`. -/
def g2_names : Graph :=
  { nodes := [ext_node "a", ext_node "b"],
    connections := some [names_conn],
    exposed_messages := none, exposed_properties := none }

/-- Single-name flow `X` targeting `b`. -/
def named_X_flow : GraphMessageFlow :=
  { name := some "X", names := none,
    dest := [{ loc := ext_loc "b", msg_conversion := none }],
    source := [] }

/-- Connection of `a` holding the single-name flow `X`. -/
def named_X_conn : GraphConnection :=
  { loc := ext_loc "a", cmd := some [named_X_flow], data := none,
    audio_frame := none, video_frame := none }

/-- Graph holding the single-name flow `a --cmd:X--> b`. -/
def g1_named : Graph :=
  { nodes := [ext_node "a", ext_node "b"],
    connections := some [named_X_conn],
    exposed_messages := none, exposed_properties := none }

instance (graph : Graph) (st : GraphNodeType) (sn : String)
    (sa : Option String) (mt : MsgType) (ns : List String)
    (dt : GraphNodeType) (dn : String) (da : Option String) :
    Decidable (connection_exists_pred graph st sn sa mt ns dt dn da) := by
  unfold connection_exists_pred
  infer_instance

/-! ### Theorems -/

theorem check_flows_eq_false (o : Option (List GraphMessageFlow))
    (h : ∀ f ∈ o.getD [], f.source = []) : check_flows o = false := by
  cases o with
  | none => rfl
  | some fs =>
    simp only [check_flows, List.any_eq_false]
    intro f hf
    simp [h f (by simpa using hf)]

/-- Claim C6: for every graph in which no message flow of any connection
(in any of cmd, data, audio_frame, video_frame) has a non-empty source
list — including graphs with no connections at all — the reverse
normalizer returns `Ok(None)`, reporting no change. -/
theorem C6_reverse_normalization_stability (g : Graph)
    (h : all_sources_empty g) :
    convert_reversed_connections_to_forward_connections g = .ok none := by
  unfold convert_reversed_connections_to_forward_connections
  cases hc : g.connections with
  | none => rfl
  | some cs =>
    have hall : ∀ c ∈ cs, ∀ f ∈ conn_flows c, f.source = [] := by
      intro c hcmem
      exact h c (by rw [hc]; simpa using hcmem)
    have hrev : (cs.any fun conn =>
        check_flows conn.cmd || check_flows conn.data ||
        check_flows conn.audio_frame || check_flows conn.video_frame)
        = false := by
      rw [List.any_eq_false]
      intro conn hconn
      have h1 := check_flows_eq_false conn.cmd (fun f hf =>
        hall conn hconn f (by simp [conn_flows, hf]))
      have h2 := check_flows_eq_false conn.data (fun f hf =>
        hall conn hconn f (by simp [conn_flows, hf]))
      have h3 := check_flows_eq_false conn.audio_frame (fun f hf =>
        hall conn hconn f (by simp [conn_flows, hf]))
      have h4 := check_flows_eq_false conn.video_frame (fun f hf =>
        hall conn hconn f (by simp [conn_flows, hf]))
      simp [h1, h2, h3, h4]
    simp [hrev]

/-- Witness for C6 at a concrete forward-only graph. -/
theorem C6_reverse_normalization_stability_witness :
    all_sources_empty forward_graph_example ∧
    convert_reversed_connections_to_forward_connections
      forward_graph_example = .ok none :=
  ⟨by decide, C6_reverse_normalization_stability forward_graph_example
    (by decide)⟩

/-- Claim C5, counterexample: on the duplicate-reverse scenario (two
connections rooted at `some_extension`, each declaring `cmd hello` with
source `another_ext`), the normalizer does produce a single connection
rooted at `another_ext`, but its cmd list holds two flows, not exactly
one: same-name flows are left unmerged by this pass. -/
theorem C5_duplicate_reverse_merge_counterexample :
    convert_reversed_connections_to_forward_connections dup_reverse_graph
      = .ok (some dup_reverse_result) ∧
    dup_reverse_result.connections = some [dup_merged_conn] ∧
    dup_merged_conn.loc.extension = some "another_ext" ∧
    (dup_merged_conn.cmd.getD []).length = 2 ∧
    (dup_merged_conn.cmd.getD []).length ≠ 1 := by
  refine ⟨by rfl, by rfl, by rfl, by rfl, by decide⟩

/-- Claim C5, amended: on the duplicate-reverse scenario the normalizer
returns a graph with a single connection rooted at `another_ext` whose cmd
list contains exactly two identical `hello` flows, each with exactly one
destination (`some_extension`); flows with equal names are not merged in
this pass. -/
theorem C5_duplicate_reverse_merge_amended :
    convert_reversed_connections_to_forward_connections dup_reverse_graph
      = .ok (some dup_reverse_result) ∧
    dup_reverse_result.connections =
      some [{ loc := ext_loc "another_ext",
              cmd := some [hello_fwd_flow, hello_fwd_flow],
              data := none, audio_frame := none, video_frame := none }] ∧
    hello_fwd_flow.dest.length = 1 := by
  exact ⟨by rfl, by rfl, by rfl⟩

theorem mem_foldl_append {α β : Type} (h : β → List α) (l : List β)
    (init : List α) (c : α) :
    c ∈ l.foldl (fun acc x => acc ++ h x) init ↔
      c ∈ init ∨ ∃ x ∈ l, c ∈ h x := by
  induction l generalizing init with
  | nil => simp
  | cons y ys ih =>
    rw [List.foldl_cons, ih]
    simp [List.mem_append, or_assoc]

theorem forward_conns_source_empty {flow : GraphMessageFlow} {t : FlowType}
    {d : GraphDestination} {c : GraphConnection}
    (hc : c ∈ forward_conns_of_flow flow t d) :
    ∀ f ∈ conn_flows c, f.source = [] := by
  unfold forward_conns_of_flow at hc
  rw [List.mem_map] at hc
  obtain ⟨src, _, rfl⟩ := hc
  cases t <;> simp [conn_flows, GraphConnection.new]

theorem pmf_snd_source_empty {fs : List GraphMessageFlow} {t : FlowType}
    {d : GraphDestination} {c : GraphConnection}
    (hc : c ∈ (process_message_flows fs t d).2) :
    ∀ f ∈ conn_flows c, f.source = [] := by
  have heq : (process_message_flows fs t d).2 =
      fs.foldl (fun acc f => acc ++
        (if f.source.isEmpty then [] else forward_conns_of_flow f t d))
        [] := by
    show fs.foldl (fun acc f => if f.source.isEmpty then acc
      else acc ++ forward_conns_of_flow f t d) [] = _
    congr 1
    funext acc f
    by_cases hf : f.source.isEmpty <;> simp [hf]
  rw [heq, mem_foldl_append] at hc
  rcases hc with hc | ⟨f, _, hc⟩
  · simp at hc
  · by_cases hf : f.source.isEmpty
    · simp [hf] at hc
    · rw [if_neg hf] at hc
      exact forward_conns_source_empty hc

theorem pmf_fst_source_empty {fs : List GraphMessageFlow} {t : FlowType}
    {d : GraphDestination} :
    ∀ f ∈ ((process_message_flows fs t d).1).getD [], f.source = [] := by
  intro f hf
  have heq : (process_message_flows fs t d).1 =
      (if (if fs.any (fun f => !f.source.isEmpty) then
            fs.filter (fun f => f.source.isEmpty) else fs).isEmpty
       then none
       else some (if fs.any (fun f => !f.source.isEmpty) then
            fs.filter (fun f => f.source.isEmpty) else fs)) := rfl
  rw [heq] at hf
  by_cases hany : (fs.any fun f => !f.source.isEmpty) = true
  · simp only [if_pos hany] at hf
    split at hf
    · simp at hf
    · rw [Option.getD_some, List.mem_filter] at hf
      simpa using hf.2
  · simp only [if_neg hany] at hf
    split at hf
    · simp at hf
    · rw [Option.getD_some] at hf
      rw [Bool.not_eq_true, List.any_eq_false] at hany
      have := hany f hf
      simpa using this

theorem pmf_step_snd_source_empty {o : Option (List GraphMessageFlow)}
    {t : FlowType} {d : GraphDestination} {c : GraphConnection}
    (hc : c ∈ (pmf_step o t d).2) :
    ∀ f ∈ conn_flows c, f.source = [] := by
  cases o with
  | none => simp [pmf_step] at hc
  | some fs => exact pmf_snd_source_empty hc

theorem pmf_step_fst_source_empty (o : Option (List GraphMessageFlow))
    (t : FlowType) (d : GraphDestination) :
    ∀ f ∈ ((pmf_step o t d).1).getD [], f.source = [] := by
  cases o with
  | none => simp [pmf_step]
  | some fs => exact pmf_fst_source_empty

theorem process_conn_source_empty {conn c : GraphConnection}
    (hc : c ∈ process_conn conn) : ∀ f ∈ conn_flows c, f.source = [] := by
  unfold process_conn at hc
  simp only [List.mem_append] at hc
  rcases hc with ((((hc | hc) | hc) | hc) | hc)
  · exact pmf_step_snd_source_empty hc
  · exact pmf_step_snd_source_empty hc
  · exact pmf_step_snd_source_empty hc
  · exact pmf_step_snd_source_empty hc
  · split at hc
    · rw [List.mem_singleton] at hc
      subst hc
      intro f hf
      simp only [conn_flows, GraphConnection.new, List.mem_append] at hf
      rcases hf with ((hf | hf) | hf) | hf
      · exact pmf_step_fst_source_empty _ _ _ f hf
      · exact pmf_step_fst_source_empty _ _ _ f hf
      · exact pmf_step_fst_source_empty _ _ _ f hf
      · exact pmf_step_fst_source_empty _ _ _ f hf
    · simp at hc

theorem merge_flow_lists_mem {f : GraphMessageFlow}
    {o1 o2 : Option (List GraphMessageFlow)}
    (hf : f ∈ (merge_flow_lists o1 o2).getD []) :
    f ∈ o1.getD [] ∨ f ∈ o2.getD [] := by
  cases o2 with
  | none => exact Or.inl hf
  | some fs =>
    simp only [merge_flow_lists, Option.getD_some, List.mem_append] at hf
    simpa using hf

theorem merge_into_source_empty {acc : List GraphConnection}
    {conn : GraphConnection}
    (hacc : ∀ c ∈ acc, ∀ f ∈ conn_flows c, f.source = [])
    (hconn : ∀ f ∈ conn_flows conn, f.source = []) :
    ∀ c ∈ merge_into acc conn, ∀ f ∈ conn_flows c, f.source = [] := by
  unfold merge_into
  split
  · intro c hc
    rw [List.mem_map] at hc
    obtain ⟨c0, hc0, rfl⟩ := hc
    split
    · intro f hf
      simp only [conn_flows, List.mem_append] at hf
      rcases hf with ((hf | hf) | hf) | hf <;>
        rcases merge_flow_lists_mem hf with h | h
      · exact hacc c0 hc0 f (by simp [conn_flows, h])
      · exact hconn f (by simp [conn_flows, h])
      · exact hacc c0 hc0 f (by simp [conn_flows, h])
      · exact hconn f (by simp [conn_flows, h])
      · exact hacc c0 hc0 f (by simp [conn_flows, h])
      · exact hconn f (by simp [conn_flows, h])
      · exact hacc c0 hc0 f (by simp [conn_flows, h])
      · exact hconn f (by simp [conn_flows, h])
    · exact hacc c0 hc0
  · intro c hc
    rw [List.mem_append] at hc
    rcases hc with hc | hc
    · exact hacc c hc
    · rw [List.mem_singleton] at hc
      subst hc
      exact hconn

theorem merge_connections_source_empty {conns : List GraphConnection}
    (h : ∀ c ∈ conns, ∀ f ∈ conn_flows c, f.source = []) :
    ∀ c ∈ merge_connections conns, ∀ f ∈ conn_flows c, f.source = [] := by
  unfold merge_connections
  suffices hgen : ∀ (l init : List GraphConnection),
      (∀ c ∈ init, ∀ f ∈ conn_flows c, f.source = []) →
      (∀ c ∈ l, ∀ f ∈ conn_flows c, f.source = []) →
      ∀ c ∈ l.foldl merge_into init, ∀ f ∈ conn_flows c,
        f.source = [] by
    exact hgen conns [] (by simp) h
  clear h
  intro l
  induction l with
  | nil => intro init hinit _; simpa using hinit
  | cons x xs ih =>
    intro init hinit hl
    rw [List.foldl_cons]
    exact ih _ (merge_into_source_empty hinit (hl x (by simp)))
      (fun c hc => hl c (by simp [hc]))

/-- Claim C10: whenever the reverse normalizer returns `Ok(Some(g2))`,
every message flow in every connection of `g2`, across all four flow
categories, has an empty source list: one pass consumes all reversed
flows. -/
theorem C10_forward_invariant (g g2 : Graph)
    (h : convert_reversed_connections_to_forward_connections g
      = .ok (some g2)) : all_sources_empty g2 := by
  unfold convert_reversed_connections_to_forward_connections at h
  cases hc : g.connections with
  | none => rw [hc] at h; simp at h
  | some cs =>
    rw [hc] at h
    dsimp only at h
    split at h
    · simp at h
    · have hg2 : g2 = { g with connections := some (merge_connections
          (cs.foldl (fun acc conn => acc ++ process_conn conn) [])) } := by
        have := h
        simp only [Except.ok.injEq, Option.some.injEq] at this
        exact this.symm
      intro c hcmem f hf
      rw [hg2] at hcmem
      simp only [Option.getD_some] at hcmem
      have hmem : ∀ c0 ∈ cs.foldl
          (fun acc conn => acc ++ process_conn conn) [],
          ∀ f0 ∈ conn_flows c0, f0.source = [] := by
        intro c0 hc0
        rw [mem_foldl_append] at hc0
        rcases hc0 with h0 | ⟨x, hx, h0⟩
        · simp at h0
        · exact process_conn_source_empty h0
      exact merge_connections_source_empty hmem c hcmem f hf

/-- Witness for C10 at the concrete duplicate-reverse graph. -/
theorem C10_forward_invariant_witness :
    convert_reversed_connections_to_forward_connections dup_reverse_graph
      = .ok (some dup_reverse_result) ∧
    all_sources_empty dup_reverse_result :=
  ⟨by rfl, C10_forward_invariant dup_reverse_graph dup_reverse_result
    (by rfl)⟩

theorem except_ok_bind {α β : Type} (a : α) (k : α → Except String β) :
    (Except.ok a >>= k) = k a := rfl

theorem list_mapM_ok {α β : Type} (f : α → Except String β) (g : α → β)
    (l : List α) (h : ∀ x ∈ l, f x = .ok (g x)) :
    l.mapM f = .ok (l.map g) := by
  induction l with
  | nil => rfl
  | cons x xs ih =>
    have ih2 := ih (fun y hy => h y (by simp [hy]))
    simp only [List.mapM_cons, h x (List.mem_cons_self x xs), ih2,
      except_ok_bind, List.map_cons]
    rfl

theorem update_dest_subgraph_none (mappings : List (String × Graph))
    (mt : GraphExposedMessageType) (fname : Option String)
    (d : GraphDestination) (h : d.loc.subgraph = none) :
    update_dest mappings mt fname d = .ok (dest_colon_rewrite d) := by
  simp [update_dest, dest_colon_rewrite, h]

theorem update_flows_of_none (mappings : List (String × Graph))
    (mt : GraphExposedMessageType) (fs : List GraphMessageFlow)
    (h : ∀ f ∈ fs, ∀ d ∈ f.dest, d.loc.subgraph = none) :
    update_flows mappings mt fs = .ok (fs.map flow_dest_rewrite) := by
  unfold update_flows
  apply list_mapM_ok
  intro flow hflow
  have hds : flow.dest.mapM (update_dest mappings mt flow.name)
      = .ok (flow.dest.map dest_colon_rewrite) :=
    list_mapM_ok _ _ _
      (fun d hd => update_dest_subgraph_none _ _ _ _ (h flow hflow d hd))
  simp only [bind, hds, except_ok_bind]
  rfl

theorem opt_update_of_none (mappings : List (String × Graph))
    (mt : GraphExposedMessageType) (o : Option (List GraphMessageFlow))
    (h : ∀ f ∈ o.getD [], ∀ d ∈ f.dest, d.loc.subgraph = none) :
    opt_update mappings mt o = .ok (o.map (List.map flow_dest_rewrite)) := by
  cases o with
  | none => rfl
  | some fs =>
    have hu := update_flows_of_none mappings mt fs
      (fun f hf => h f (by simpa using hf))
    simp only [opt_update, bind, hu, except_ok_bind, Option.map_some]
    rfl

/-- Claim C4, counterexample: the flattener does not exempt the reserved
`ten` namespace from colon rewriting. On a connection whose origin
extension is `ten:foo`, `update_connection_source` rewrites the extension
to `ten_foo` rather than leaving it unchanged. -/
theorem C4_ten_rewrite_counterexample :
    update_connection_source ten_colon_conn [] =
      .ok { ten_colon_conn with loc :=
        { ten_colon_conn.loc with extension := some "ten_foo" } } ∧
    (some "ten_foo" : Option String) ≠ some "ten:foo" :=
  ⟨by rfl, by decide⟩

/-- Claim C4, amended: during subgraph flattening, a connection origin or
destination extension of the form `prefix:ident` (exactly one colon) is
rewritten to `prefix_ident` for every prefix, including the reserved
`ten`; strings without exactly one colon are left unchanged. The `ten`
exemption exists only in subgraph-reference validation, not in the
flattener. -/
theorem C4_colon_rewrite_amended (conn : GraphConnection)
    (mappings : List (String × Graph)) (h : conn.loc.subgraph = none)
    (hdest : ∀ f ∈ conn_flows conn, ∀ d ∈ f.dest, d.loc.subgraph = none) :
    update_connection_source conn mappings =
      .ok { conn with loc :=
        { conn.loc with
          extension := conn.loc.extension.map colon_rewrite } } ∧
    update_message_flows_for_flattening conn mappings =
      .ok { conn with
            cmd := conn.cmd.map (List.map flow_dest_rewrite),
            data := conn.data.map (List.map flow_dest_rewrite),
            audio_frame :=
              conn.audio_frame.map (List.map flow_dest_rewrite),
            video_frame :=
              conn.video_frame.map (List.map flow_dest_rewrite) } := by
  constructor
  · simp [update_connection_source, h]
  · have h1 := opt_update_of_none mappings .CmdIn conn.cmd
      (fun f hf => hdest f (by simp [conn_flows, hf]))
    have h2 := opt_update_of_none mappings .DataIn conn.data
      (fun f hf => hdest f (by simp [conn_flows, hf]))
    have h3 := opt_update_of_none mappings .AudioFrameIn conn.audio_frame
      (fun f hf => hdest f (by simp [conn_flows, hf]))
    have h4 := opt_update_of_none mappings .VideoFrameIn conn.video_frame
      (fun f hf => hdest f (by simp [conn_flows, hf]))
    simp only [update_message_flows_for_flattening, bind, h1, h2, h3, h4,
      except_ok_bind]
    rfl

/-- Witness for the amended C4 at a concrete connection: the origin
`sub:src` becomes `sub_src` and the destination `ten:bar` becomes
`ten_bar`. -/
theorem C4_colon_rewrite_amended_witness :
    colon_conn_example.loc.subgraph = none ∧
    (∀ f ∈ conn_flows colon_conn_example, ∀ d ∈ f.dest,
      d.loc.subgraph = none) ∧
    (update_connection_source colon_conn_example [] =
      .ok { colon_conn_example with loc :=
        { colon_conn_example.loc with
          extension := colon_conn_example.loc.extension.map
            colon_rewrite } } ∧
    update_message_flows_for_flattening colon_conn_example [] =
      .ok { colon_conn_example with
            cmd := colon_conn_example.cmd.map (List.map flow_dest_rewrite),
            data :=
              colon_conn_example.data.map (List.map flow_dest_rewrite),
            audio_frame := colon_conn_example.audio_frame.map
              (List.map flow_dest_rewrite),
            video_frame := colon_conn_example.video_frame.map
              (List.map flow_dest_rewrite) }) :=
  ⟨rfl, by decide, C4_colon_rewrite_amended colon_conn_example [] rfl
    (by decide)⟩

/-- Claim C8: evaluation of the resolver at the failing input. Joining
the imported path `..` onto base `..` yields the path `../..`, whose pure
relative `..` prefix the specification requires to be preserved; the code
instead lets the second `..` pop the first and returns `.`. The last
conjunct documents that ordinary popping (`../x` against base `a/b`)
behaves as specified. -/
theorem C8_parent_of_parent_normalization :
    get_real_path_from_import_uri ".." ".." = .ok "." ∧
    path_join ".." ".." = "../.." ∧
    normalize_path_components "../.." = .ok "." ∧
    ("." : String) ≠ "../.." ∧
    get_real_path_from_import_uri "../x" "a/b" = .ok "a/x" :=
  ⟨rfl, rfl, rfl, by decide, rfl⟩

theorem opt_list_nonempty_true_iff {α : Type} (o : Option (List α)) :
    opt_list_nonempty o = true ↔ ∃ l, o = some l ∧ l ≠ [] := by
  cases o with
  | none => simp [opt_list_nonempty]
  | some l => cases l <;> simp [opt_list_nonempty]

theorem opt_list_nonempty_false_iff {α : Type} (o : Option (List α)) :
    opt_list_nonempty o = false ↔ (o = none ∨ o = some []) := by
  cases o with
  | none => simp [opt_list_nonempty]
  | some l => cases l <;> simp [opt_list_nonempty]

/-- Claim C7: when `import_uri` is set and any of nodes, connections,
exposed_messages or exposed_properties is populated,
`validate_and_complete_and_flatten` returns an error; when `import_uri`
is set and all those fields are empty, the external graph is loaded from
the URI (with a `None` out-parameter slot) and replaces the stored graph
before the graph-level validate-complete-flatten runs. -/
theorem C7_import_uri_exclusion_and_replacement
    (readGraph : String → Except String Graph)
    (http_load file_load :
      String → Option String → Except String Graph × Option String)
    (vcf : Graph → Option String → Except String Graph)
    (gi : GraphInfo) (u : String) (hu : gi.import_uri = some u) :
    ((gi.graph.nodes ≠ [] ∨
      (∃ cs, gi.graph.connections = some cs ∧ cs ≠ []) ∨
      (∃ ms, gi.graph.exposed_messages = some ms ∧ ms ≠ []) ∨
      (∃ ps, gi.graph.exposed_properties = some ps ∧ ps ≠ [])) →
      ∃ e, GraphInfo.validate_and_complete_and_flatten readGraph http_load
        file_load vcf gi = .error e) ∧
    (gi.graph.nodes = [] ∧
      (gi.graph.connections = none ∨ gi.graph.connections = some []) ∧
      (gi.graph.exposed_messages = none ∨
        gi.graph.exposed_messages = some []) ∧
      (gi.graph.exposed_properties = none ∨
        gi.graph.exposed_properties = some []) →
      GraphInfo.validate_and_complete_and_flatten readGraph http_load
        file_load vcf gi =
        match (load_graph_from_uri readGraph http_load file_load u
            gi.app_base_dir none).1 with
        | .error e => .error e
        | .ok g =>
          match vcf g gi.app_base_dir with
          | .error e => .error e
          | .ok g2 => .ok { gi with graph := g2 }) := by
  constructor
  · intro hdisj
    unfold GraphInfo.validate_and_complete_and_flatten
    cases hconf : import_uri_field_conflict gi with
    | some e => exact ⟨e, rfl⟩
    | none =>
      exfalso
      unfold import_uri_field_conflict at hconf
      rw [hu] at hconf
      simp only [Option.isSome_some, if_true] at hconf
      split_ifs at hconf with h1 h2 h3 h4
      have h1e : gi.graph.nodes = [] := by
        rw [← List.isEmpty_iff]
        simpa using h1
      have h2e := (opt_list_nonempty_false_iff _).mp (by simpa using h2)
      have h3e := (opt_list_nonempty_false_iff _).mp (by simpa using h3)
      have h4e := (opt_list_nonempty_false_iff _).mp (by simpa using h4)
      rcases hdisj with h | ⟨l, hl, hne⟩ | ⟨l, hl, hne⟩ | ⟨l, hl, hne⟩
      · exact h h1e
      · rcases h2e with h2e | h2e <;> rw [h2e] at hl <;> simp at hl
        exact hne (by simp [hl])
      · rcases h3e with h3e | h3e <;> rw [h3e] at hl <;> simp at hl
        exact hne (by simp [hl])
      · rcases h4e with h4e | h4e <;> rw [h4e] at hl <;> simp at hl
        exact hne (by simp [hl])
  · rintro ⟨hn, hc, hm, hp⟩
    have hconf : import_uri_field_conflict gi = none := by
      unfold import_uri_field_conflict
      rw [hu]
      have hb1 : gi.graph.nodes.isEmpty = true := by
        rw [List.isEmpty_iff]; exact hn
      have hb2 : opt_list_nonempty gi.graph.connections = false :=
        (opt_list_nonempty_false_iff _).mpr hc
      have hb3 : opt_list_nonempty gi.graph.exposed_messages = false :=
        (opt_list_nonempty_false_iff _).mpr hm
      have hb4 : opt_list_nonempty gi.graph.exposed_properties = false :=
        (opt_list_nonempty_false_iff _).mpr hp
      simp [hb1, hb2, hb3, hb4]
    unfold GraphInfo.validate_and_complete_and_flatten
    rw [hconf, hu]
    dsimp only
    cases hload : (load_graph_from_uri readGraph http_load file_load u
        gi.app_base_dir none).1 with
    | error e => rfl
    | ok g => dsimp only

/-- Witness for C7: the conflicting graph info is rejected, while the
clean graph info has its graph replaced by the loaded one. -/
theorem C7_import_uri_exclusion_and_replacement_witness :
    gi_conflict.import_uri = some "g.json" ∧
    gi_conflict.graph.nodes ≠ [] ∧
    (∃ e, GraphInfo.validate_and_complete_and_flatten stub_read_graph
      stub_url_load stub_url_load stub_vcf gi_conflict = .error e) ∧
    GraphInfo.validate_and_complete_and_flatten stub_read_graph
      stub_url_load stub_url_load stub_vcf gi_clean =
      .ok { gi_clean with graph := forward_graph_example } := by
  refine ⟨rfl, by decide, ?_, ?_⟩
  · exact (C7_import_uri_exclusion_and_replacement stub_read_graph
      stub_url_load stub_url_load stub_vcf gi_conflict "g.json" rfl).1
      (Or.inl (by decide))
  · exact ((C7_import_uri_exclusion_and_replacement stub_read_graph
      stub_url_load stub_url_load stub_vcf gi_clean "g.json" rfl).2
      ⟨rfl, Or.inl rfl, Or.inl rfl, Or.inl rfl⟩).trans (by rfl)

/-- Claim C9, counterexample: a successful relative-path load with a
`None` out-parameter leaves the out-parameter `None`; it does not come
back as `Some(parent of base joined with uri)`. -/
theorem C9_none_out_param_counterexample :
    (load_graph_from_uri stub_read_graph stub_url_load stub_url_load
      "g.json" (some "a/b") none).1 = .ok forward_graph_example ∧
    (load_graph_from_uri stub_read_graph stub_url_load stub_url_load
      "g.json" (some "a/b") none).2 = none ∧
    path_parent (path_join "a/b" "g.json") = some "a/b" ∧
    (none : Option String) ≠ some "a/b" :=
  ⟨rfl, rfl, rfl, by decide⟩

/-- Claim C9, amended: for a relative (non-URL) uri, `base_dir` must have
been provided — a missing base is an error that leaves the out-parameter
untouched — and the out-parameter comes back as `Some(parent of
base_dir joined with uri)` only for a caller that passed it in as `Some`;
a caller that passed `None` gets `None` back, because the source writes
the slot only when it is already populated. -/
theorem C9_new_base_dir_amended
    (readGraph : String → Except String Graph)
    (http_load file_load :
      String → Option String → Except String Graph × Option String)
    (uri bd s0 p : String)
    (hurl : url_scheme uri = none) (habs : is_absolute uri = false)
    (hpar : path_parent (path_join bd uri) = some p) :
    load_graph_from_uri readGraph http_load file_load uri none (some s0) =
      (.error "base_dir cannot be None when uri is a relative path",
        some s0) ∧
    load_graph_from_uri readGraph http_load file_load uri none none =
      (.error "base_dir cannot be None when uri is a relative path",
        none) ∧
    load_graph_from_uri readGraph http_load file_load uri (some bd)
      (some s0) = (readGraph (path_join bd uri), some p) ∧
    load_graph_from_uri readGraph http_load file_load uri (some bd) none =
      (readGraph (path_join bd uri), none) := by
  refine ⟨?_, ?_, ?_, ?_⟩ <;>
    · unfold load_graph_from_uri
      rw [hurl]
      simp [habs, hpar]

/-- Witness for the amended C9 at a concrete relative load. -/
theorem C9_new_base_dir_amended_witness :
    url_scheme "g.json" = none ∧ is_absolute "g.json" = false ∧
    path_parent (path_join "a/b" "g.json") = some "a/b" ∧
    (load_graph_from_uri stub_read_graph stub_url_load stub_url_load
        "g.json" none (some "z") =
      (.error "base_dir cannot be None when uri is a relative path",
        some "z") ∧
    load_graph_from_uri stub_read_graph stub_url_load stub_url_load
        "g.json" none none =
      (.error "base_dir cannot be None when uri is a relative path",
        none) ∧
    load_graph_from_uri stub_read_graph stub_url_load stub_url_load
        "g.json" (some "a/b") (some "z") =
      (stub_read_graph (path_join "a/b" "g.json"), some "a/b") ∧
    load_graph_from_uri stub_read_graph stub_url_load stub_url_load
        "g.json" (some "a/b") none =
      (stub_read_graph (path_join "a/b" "g.json"), none)) :=
  ⟨rfl, rfl, rfl, C9_new_base_dir_amended stub_read_graph stub_url_load
    stub_url_load "g.json" "a/b" "z" "a/b" rfl rfl rfl⟩

/-- Claim C3, counterexample: on a manifest API with one interface entry
and a loader that succeeds on every load (returning an interface-free
API, so no path is visited twice), `flatten` does not return `Ok` with
merged API definitions: it reaches the unimplemented merge step and fails
with the literal `Not implemented` error. -/
theorem C3_flatten_not_implemented_counterexample :
    ManifestApi.flatten ok_iface_loader 10 api_with_iface =
      .error "Not implemented" ∧
    ok_iface_loader iface_a [] = .ok (leaf_api, []) ∧
    leaf_api.interface = none :=
  ⟨rfl, rfl, rfl⟩

/-- Claim C3, amended: `flatten` returns `Ok(None)` exactly when there
are no interface entries; with at least one entry it always returns an
error — either a propagated load error or, when every recursive load
succeeds, the `Not implemented` error of the unimplemented merge — and
`load_interface` fails with a circular-reference error whenever the
canonical path of the entry is already in the visited set. -/
theorem C3_flatten_amended :
    (∀ (loader : InterfaceLoader) (fuel : Nat) (api : ManifestApi),
      (api.interface = none ∨ api.interface = some []) →
      ManifestApi.flatten loader fuel api = .ok none) ∧
    (∀ (loader : InterfaceLoader) (fuel : Nat) (api : ManifestApi)
      (l : List ManifestApiInterface),
      api.interface = some l → l ≠ [] →
      ∃ e, ManifestApi.flatten loader fuel api = .error e) ∧
    (∀ (h f r : String → Except String ManifestApi)
      (iface : ManifestApiInterface) (set : List String) (rp : String),
      get_real_path_from_import_uri iface.import_uri iface.base_dir =
        .ok rp →
      rp ∈ set →
      load_interface h f r iface set =
        .error ("Circular reference detected: " ++ rp)) := by
  refine ⟨?_, ?_, ?_⟩
  · intro loader fuel api h
    rcases h with h | h <;> simp [ManifestApi.flatten, h]
  · intro loader fuel api l hl hne
    have hcond :
        (api.interface.isNone || (api.interface.getD []).isEmpty)
          = false := by
      rw [hl]
      cases l with
      | nil => exact absurd rfl hne
      | cons x xs => simp
    unfold ManifestApi.flatten
    rw [hcond]
    cases hr : flatten_internal loader fuel api [] [] with
    | error e => exact ⟨e, by simp [hr]⟩
    | ok p => exact ⟨"Not implemented", by simp [hr]⟩
  · intro h f r iface set rp hrp hmem
    unfold load_interface
    rw [hrp]
    have hc : set.contains rp = true := by
      simpa [List.contains] using hmem
    dsimp only
    rw [if_pos hc]

/-- Witness for the amended C3 at concrete inputs: an interface-free API
flattens to `Ok(None)`; an API with one entry fails although every load
succeeds; a visited path is rejected as circular. -/
theorem C3_flatten_amended_witness :
    ManifestApi.flatten ok_iface_loader 5 leaf_api = .ok none ∧
    (∃ e, ManifestApi.flatten ok_iface_loader 5 api_with_iface =
      .error e) ∧
    (get_real_path_from_import_uri iface_a.import_uri iface_a.base_dir =
      .ok "/base/a.json" ∧
    load_interface stub_api_load stub_api_load stub_api_load iface_a
        ["/base/a.json"] =
      .error ("Circular reference detected: " ++ "/base/a.json")) :=
  ⟨C3_flatten_amended.1 ok_iface_loader 5 leaf_api (Or.inl rfl),
   C3_flatten_amended.2.1 ok_iface_loader 5 api_with_iface [iface_a] rfl
     (by simp),
   rfl,
   C3_flatten_amended.2.2 stub_api_load stub_api_load stub_api_load
     iface_a ["/base/a.json"] "/base/a.json" rfl (by simp)⟩

/-- Claim C1: evaluation of the mutator at the failing input. With
`connections` absent and an empty `msg_name` list, the call returns an
error, yet the final graph has `connections` initialized to an empty
list: the initialization happens before the empty-name check and is not
rolled back, so the graph does not equal its pre-call value. -/
theorem C1_rollback_empty_msg_name_failure :
    graph_add_connection schema_ok g_conn_none sub_loc_s sub_loc_s .Cmd []
      none =
      .error ("Message name is empty",
        { g_conn_none with connections := some [] }) ∧
    { g_conn_none with connections := some [] } ≠ g_conn_none :=
  ⟨rfl, by decide⟩

/-- Claim C2, counterexample: adding `a --cmd:[X,Y]--> b` twice does not
produce an error. The first call stores the names in the `names` field;
the duplicate check of the second call compares only `name`, finds no
match, and the insertion step appends nothing because the destination is
already present, so the second call returns `Ok` with the graph
unchanged. -/
theorem C2_names_duplicate_counterexample :
    graph_add_connection schema_ok g0_ab (ext_loc "a") (ext_loc "b") .Cmd
      ["X", "Y"] none = .ok g2_names ∧
    graph_add_connection schema_ok g2_names (ext_loc "a") (ext_loc "b")
      .Cmd ["X", "Y"] none = .ok g2_names :=
  ⟨rfl, rfl⟩

theorem check_connection_exists_error_of_pred (graph : Graph)
    (st : GraphNodeType) (sn : String) (sa : Option String) (mt : MsgType)
    (ns : List String) (dt : GraphNodeType) (dn : String)
    (da : Option String)
    (h : connection_exists_pred graph st sn sa mt ns dt dn da) :
    check_connection_exists graph st sn sa mt ns dt dn da =
      .error "Connection already exists" := by
  obtain ⟨conn, hconn, hmatch, flow, hflow, n, hn, hname, d, hd, hdm⟩ := h
  unfold check_connection_exists
  cases hc : graph.connections with
  | none => rw [hc] at hconn; simp at hconn
  | some cs =>
    have hconn2 : conn ∈ cs := by rw [hc] at hconn; simpa using hconn
    dsimp only
    rw [if_pos]
    rw [List.any_eq_true]
    refine ⟨conn, hconn2, ?_⟩
    simp only [Bool.and_eq_true, List.any_eq_true]
    refine ⟨hmatch, flow, hflow, n, hn, ?_, d, hd, hdm⟩
    simp [hname]

/-- Claim C2, amended: when the duplicate is recorded through the `name`
field — some existing flow of the requested message type has
`name` equal to one of the requested names, same source node and a
matching destination — the call returns an error and the graph is left
unchanged (the error state carries the untouched input graph). Duplicates
recorded through the `names` field are not detected. -/
theorem C2_name_duplicate_rejected
    (validate_schema : MsgConversionValidateInfo → Except String Unit)
    (graph : Graph) (src dest : GraphLoc) (mt : MsgType)
    (ns : List String) (mc : Option MsgAndResultConversion)
    (st dt : GraphNodeType) (sn dn : String)
    (hst : src.get_node_type = .ok st)
    (hdt : dest.get_node_type = .ok dt)
    (hsn : src.get_node_name = .ok sn)
    (hdn : dest.get_node_name = .ok dn)
    (hdup : connection_exists_pred graph st sn src.app mt ns dt dn
      dest.app) :
    ∃ e, graph_add_connection validate_schema graph src dest mt ns mc =
      .error (e, graph) := by
  unfold graph_add_connection
  rw [hst, hdt, hsn, hdn]
  dsimp only
  cases h1 : GraphLoc.check_node_exists src graph with
  | error e => exact ⟨e, rfl⟩
  | ok _ =>
    cases h2 : GraphLoc.check_node_exists dest graph with
    | error e => exact ⟨e, rfl⟩
    | ok _ =>
      rw [check_connection_exists_error_of_pred graph st sn src.app mt ns
        dt dn dest.app hdup]
      exact ⟨"Connection already exists", rfl⟩

/-- Witness for the amended C2: the second `a --cmd:X--> b` call on the
graph already holding that flow fails and hands back the unchanged
graph. -/
theorem C2_name_duplicate_rejected_witness :
    (ext_loc "a").get_node_type = .ok GraphNodeType.Extension ∧
    (ext_loc "b").get_node_type = .ok GraphNodeType.Extension ∧
    (ext_loc "a").get_node_name = .ok "a" ∧
    (ext_loc "b").get_node_name = .ok "b" ∧
    connection_exists_pred g1_named GraphNodeType.Extension "a" none .Cmd
      ["X"] GraphNodeType.Extension "b" none ∧
    (∃ e, graph_add_connection schema_ok g1_named (ext_loc "a")
      (ext_loc "b") .Cmd ["X"] none = .error (e, g1_named)) :=
  ⟨rfl, rfl, rfl, rfl, by decide,
   C2_name_duplicate_rejected schema_ok g1_named (ext_loc "a")
     (ext_loc "b") .Cmd ["X"] none GraphNodeType.Extension
     GraphNodeType.Extension "a" "b" rfl rfl rfl rfl (by decide)⟩

end Ten
